import Mathlib

/-!
Verification of the voice-bridge repository: the Azure OpenAI Realtime
adapter (src/services/eon-voice-claude/src/adapters/openai_realtime.py),
the session-bridge WebSocket server (src/services/eon-voice-claude/src/server.py)
and the relay gateway (src/backend/server.py).

The Python code is shallowly embedded: JSON values become an inductive
type, dictionaries become association lists with Python dict-update
semantics, exceptions become an explicit error type threaded through
`Except`, and the straight-line handshake / dispatch code becomes pure
functions from the received messages to the messages sent, the events
emitted through callbacks, and the resulting adapter state.
-/

/-- A JSON value, the data crossing every boundary of the system.
Numbers are modelled as integers; no claim concerns numeric payloads. -/
inductive Json where
  | null : Json
  | bool (b : Bool) : Json
  | num (n : Int) : Json
  | str (s : String) : Json
  | arr (elems : List Json) : Json
  | obj (fields : List (String × Json)) : Json

/-- A Python dictionary with string keys, as an ordered association list
(Python dicts preserve insertion order; keys are unique). -/
abbrev Dict := List (String × Json)

/-- Python `d.get(k)`: the value stored under the first matching key. -/
def dGet : Dict → String → Option Json
  | [], _ => none
  | (k2, v) :: rest, k => if k2 = k then some v else dGet rest k

/-- Python `d[k] = v`: replace the value in place when the key exists,
otherwise append the new key at the end. -/
def dictSet : Dict → String → Json → Dict
  | [], k, v => [(k, v)]
  | (k2, v2) :: rest, k, v =>
      if k2 = k then (k, v) :: rest else (k2, v2) :: dictSet rest k v

/-- Field lookup on a JSON value; `none` when the value is not an object
or lacks the key. -/
def Json.lookup : Json → String → Option Json
  | .obj fields, k => dGet fields k
  | _, _ => none

/-- Whether a JSON value is an object (a Python dict). -/
def Json.isObj : Json → Bool
  | .obj _ => true
  | _ => false

/-- Python `d.get("type") == t` for a string literal `t`: true exactly
when the field exists and holds that string. -/
def isTypeTag (f : Dict) (t : String) : Bool :=
  match dGet f "type" with
  | some (.str s) => s = t
  | _ => false

/-- Python truthiness of a JSON value. -/
def pyTruthy : Json → Bool
  | .null => false
  | .bool b => b
  | .num n => n != 0
  | .str s => s != ""
  | .arr xs => !xs.isEmpty
  | .obj fs => !fs.isEmpty

mutual
/-- A rough rendering of Python `str(...)` on a decoded JSON value; it is
used only for the fallback text of provider error events and never proved
about. -/
def pyStr : Json → String
  | .null => "None"
  | .bool true => "True"
  | .bool false => "False"
  | .num n => toString n
  | .str s => "\x27" ++ s ++ "\x27"
  | .arr xs => "[" ++ pyStrElems xs ++ "]"
  | .obj fs => "\x7b" ++ pyStrFields fs ++ "\x7d"

/-- Comma-separated rendering of JSON array elements. -/
def pyStrElems : List Json → String
  | [] => ""
  | [x] => pyStr x
  | x :: y :: rest => pyStr x ++ ", " ++ pyStrElems (y :: rest)

/-- Comma-separated rendering of JSON object fields. -/
def pyStrFields : List (String × Json) → String
  | [] => ""
  | [(k, v)] => "\x27" ++ k ++ "\x27: " ++ pyStr v
  | (k, v) :: p :: rest => "\x27" ++ k ++ "\x27: " ++ pyStr v ++ ", " ++ pyStrFields (p :: rest)
end

/-- The Python exceptions the embedded code can raise. -/
inductive PyErr where
  | keyError : PyErr
  | typeError : PyErr
  | attributeError : PyErr
  | connectionClosed : PyErr
  | jsonDecodeError : PyErr
  | connectionError : PyErr
  | runtimeError (msg : String) : PyErr
deriving DecidableEq, Repr

/-- Python `str(e)` on an exception (abbreviated class names; only the
RuntimeError message text matters to any claim). -/
def pyExcStr : PyErr → String
  | .keyError => "KeyError"
  | .typeError => "TypeError"
  | .attributeError => "AttributeError"
  | .connectionClosed => "ConnectionClosed"
  | .jsonDecodeError => "JSONDecodeError"
  | .connectionError => "ConnectionError"
  | .runtimeError m => m

/-- The session configuration (adapters/base.py, dataclass VoiceConfig).
Tool declarations are JSON dictionaries, matching the list[dict] type of
the source. -/
structure VoiceConfig where
  endpoint : String
  api_key : String
  model : String
  voice : String
  instructions : String
  user_id : String
  tools : List Dict
  greeting_cue : Option String

/-- Which of the seven callback slots of VoiceAdapter are set (the source
guards every invocation with, e.g., `if self.on_status:`). -/
structure Callbacks where
  on_audio : Bool
  on_transcript : Bool
  on_function_call : Bool
  on_speech_started : Bool
  on_speech_stopped : Bool
  on_status : Bool
  on_error : Bool
deriving DecidableEq, Repr

/-- The callback assignment made by the session bridge (server.py lines
184-190): all seven slots set. -/
def allCallbacks : Callbacks :=
  ⟨true, true, true, true, true, true, true⟩

/-- The mutable state of an OpenAIRealtimeAdapter instance: whether the
connection handle `self._ws` is set, whether the background event task
exists, and the `self._connected` flag. -/
structure AdapterState where
  config : VoiceConfig
  ws : Bool
  eventTaskRunning : Bool
  connected : Bool

/-- A fresh adapter as built by `__init__`: no connection handle, no event
task, not connected. -/
def initState (cfg : VoiceConfig) : AdapterState :=
  { config := cfg, ws := false, eventTaskRunning := false, connected := false }

/-- The provider-agnostic vocabulary event delivered through a callback.
Payloads are the JSON values the source passes (the audio and transcript
deltas and function-call arguments are forwarded as decoded). -/
inductive VocabEvent where
  | audio (delta : Json) : VocabEvent
  | transcript (delta : Json) : VocabEvent
  | functionCall (name : String) (callId : Json) (arguments : Json) : VocabEvent
  | speechStarted : VocabEvent
  | speechStopped : VocabEvent
  | status (state : String) : VocabEvent
  | error (message : Json) : VocabEvent

/-- The hardcoded user-scoped predicate of `_handle_function_call`
(openai_realtime.py line 307): the four memory tools, or any name with
the calendar-integration prefix. -/
def isUserScopedFunction (name : String) : Bool :=
  name = "search_memory" || name = "add_memory" ||
  name = "get_user_context" || name = "forget_memory" ||
  name.startsWith "GoogleCalendar_"

/-- Argument parsing of `_handle_function_call` (lines 300-304):
`json.loads(arguments_str) if arguments_str else {}` with JSONDecodeError
recovered to `{}`. The parameter `parse` stands for `json.loads`; `none`
means the string is not valid JSON. -/
def parseFnArguments (parse : String → Option Json) (s : String) : Json :=
  if s = "" then .obj []
  else match parse s with
    | some v => v
    | none => .obj []

/-- The arguments value of a provider function-call event before user-id
injection: the `arguments` field defaults to `""`; a non-string truthy
value would make `json.loads` raise TypeError, a falsy one is skipped. -/
def rawParsedArgs (parse : String → Option Json) (f : Dict) : Except PyErr Json :=
  match (dGet f "arguments").getD (.str "") with
  | .str s => .ok (parseFnArguments parse s)
  | other => if pyTruthy other then .error .typeError else .ok (.obj [])

/-- The user-id injection policy (lines 306-309): for user-scoped names
set `arguments["user_id"]` to the session user identifier (Python item
assignment raises TypeError when the parsed arguments are not a dict);
all other names leave the arguments untouched. -/
def injectUserId (userId : String) (name : String) (args : Json) : Except PyErr Json :=
  if isUserScopedFunction name then
    match args with
    | .obj fields => .ok (.obj (dictSet fields "user_id" (.str userId)))
    | _ => .error .typeError
  else .ok args

/-- `_handle_function_call` (lines 291-317) on the fields of a
`response.function_call_arguments.done` event: parse the arguments,
inject the user id for user-scoped names, and emit the function-call
event through the callback when it is set. A non-string name raises
AttributeError at the `.startswith` check. -/
def handleFunctionCallJ (cfg : VoiceConfig) (cbs : Callbacks)
    (parse : String → Option Json) (f : Dict) : Except PyErr (List VocabEvent) :=
  match rawParsedArgs parse f with
  | .error e => .error e
  | .ok args0 =>
    match (dGet f "name").getD (.str "") with
    | .str fname =>
      match injectUserId cfg.user_id fname args0 with
      | .error e => .error e
      | .ok args =>
        if cbs.on_function_call then
          .ok [.functionCall fname ((dGet f "call_id").getD (.str "")) args]
        else .ok []
    | _ => .error .attributeError

/-- Whether a tool declaration has `"type": "function"` (the filter of
`_configure_session`, line 70). -/
def isFunctionTool (t : Dict) : Bool :=
  isTypeTag t "function"

/-- Conversion of one tool declaration to the provider schema (lines
70-76); `tool["name"]` raises KeyError when absent. Non-function entries
are skipped. -/
def convertTool (t : Dict) : Except PyErr (Option Json) :=
  if isFunctionTool t then
    match dGet t "name" with
    | some nm =>
        .ok (some (.obj [("type", .str "function"), ("name", nm),
          ("description", (dGet t "description").getD (.str "")),
          ("parameters", (dGet t "parameters").getD (.obj []))]))
    | none => .error .keyError
  else .ok none

/-- The full tool-list conversion loop of `_configure_session`
(lines 68-76), in declaration order. -/
def convertTools : List Dict → Except PyErr (List Json)
  | [] => .ok []
  | t :: rest =>
    match convertTool t with
    | .error e => .error e
    | .ok o =>
      match convertTools rest with
      | .error e => .error e
      | .ok ts => .ok (match o with | some j => j :: ts | none => ts)

/-- The session dictionary of the session-update command (lines 79-90):
always voice, instructions and input transcription; the tools schema and
tool_choice are appended exactly when the converted tool list is
non-empty (`if openai_tools:`). -/
def sessionConfigDict (cfg : VoiceConfig) (ts : List Json) : Dict :=
  let base : Dict := [("voice", .str cfg.voice),
    ("instructions", .str cfg.instructions),
    ("input_audio_transcription", .obj [("model", .str "whisper-1")])]
  if ts.isEmpty then base
  else base ++ [("tools", .arr ts), ("tool_choice", .str "auto")]

/-- The `session.update` wire command sent during the handshake
(lines 92-98). -/
def sessionUpdate (cfg : VoiceConfig) : Except PyErr Json :=
  match convertTools cfg.tools with
  | .error e => .error e
  | .ok ts =>
      .ok (.obj [("type", .str "session.update"),
                 ("session", .obj (sessionConfigDict cfg ts))])

/-- The greeting system-message text (lines 115-126), cue-specific when a
greeting cue is configured. -/
def greetingSystemMsg (cfg : VoiceConfig) : String :=
  match cfg.greeting_cue with
  | some cue =>
      "IMPORTANT: Your very first message MUST check in about: \x27" ++ cue ++
      "\x27. For example, if the cue is \x27Check in about the presentation\x27, " ++
      "say something like \x27Hey! How\x27s the presentation prep going?\x27 " ++
      "Be warm and natural. Do NOT say generic phrases like \x27How can I help you today?\x27"
  | none =>
      "IMPORTANT: Greet the user warmly. Be natural and friendly. " ++
      "Do NOT say generic phrases like \x27How can I help you today?\x27 or " ++
      "\x27How can I assist you?\x27"

/-- The injected system-role conversation item (lines 129-142). -/
def systemItemMsg (cfg : VoiceConfig) : Json :=
  .obj [("type", .str "conversation.item.create"),
    ("item", .obj [("type", .str "message"), ("role", .str "system"),
      ("content", .arr [.obj [("type", .str "input_text"),
        ("text", .str (greetingSystemMsg cfg))]])])]

/-- The response-generation trigger requesting text and audio output
(lines 154-160). -/
def greetingResponseMsg : Json :=
  .obj [("type", .str "response.create"),
    ("response", .obj [("modalities", .arr [.str "text", .str "audio"])])]

/-- The RuntimeError raised by send_audio and send_text before a
connection handle exists (lines 182 and 193); the NotConnectedError of
the spec taxonomy. -/
def notConnectedError : PyErr :=
  .runtimeError "Not connected. Call connect() first."

/-- `send_audio` (lines 179-188): guarded by `if not self._ws`; on
success one input_audio_buffer.append wire command is sent. -/
def send_audio (st : AdapterState) (audio : Json) : Except PyErr (List Json) :=
  if st.ws = false then .error notConnectedError
  else .ok [.obj [("type", .str "input_audio_buffer.append"), ("audio", audio)]]

/-- `send_text` (lines 190-204): guarded by `if not self._ws`; on success
a user conversation item followed by a response.create trigger. -/
def send_text (st : AdapterState) (text : Json) : Except PyErr (List Json) :=
  if st.ws = false then .error notConnectedError
  else .ok [.obj [("type", .str "conversation.item.create"),
      ("item", .obj [("type", .str "message"), ("role", .str "user"),
        ("content", .arr [.obj [("type", .str "input_text"), ("text", text)]])])],
    .obj [("type", .str "response.create")]]

/-- `send_function_result` (lines 206-223): guarded by `if not self._ws`;
the function output item followed by a response.create trigger.
`pyStr result` stands for the `json.dumps(result)` string payload. -/
def send_function_result (st : AdapterState) (callId : Json) (result : Json) :
    Except PyErr (List Json) :=
  if st.ws = false then .error (.runtimeError "Not connected")
  else .ok [.obj [("type", .str "conversation.item.create"),
      ("item", .obj [("type", .str "function_call_output"),
        ("call_id", callId), ("output", .str (pyStr result))])],
    .obj [("type", .str "response.create")]]

/-- A warning logged by the handshake for an unexpected response (the
`logger.warning` calls at lines 52, 109 and 151), tagged by step and
carrying the offending type field. -/
inductive HandshakeWarning where
  | unexpectedFirstMessage (t : Option Json) : HandshakeWarning
  | unexpectedSessionUpdateResponse (t : Option Json) : HandshakeWarning
  | unexpectedItemCreateResponse (t : Option Json) : HandshakeWarning

/-- One `recv` plus `json.loads` during the handshake. The reply list
abstracts the frames the provider will deliver: `none` is a frame whose
text is not valid JSON (json.loads raises), an exhausted list is a closed
connection (recv raises). -/
def recvStep : List (Option Json) → Except PyErr (Json × List (Option Json))
  | [] => .error .connectionClosed
  | none :: _ => .error .jsonDecodeError
  | some r :: rest => .ok (r, rest)

/-- Validation of the first handshake message (connect, lines 47-52): a
non-object raises AttributeError at `.get`; `session.created` is logged
(reading `data.get("session", {}).get("id", ...)`, which raises when the
session field is a non-object); anything else is only a logged warning. -/
def firstMsgCheck (j : Json) : Except PyErr (List HandshakeWarning) :=
  match j with
  | .obj f =>
    if isTypeTag f "session.created" then
      match (dGet f "session").getD (.obj []) with
      | .obj _ => .ok []
      | _ => .error .attributeError
    else .ok [.unexpectedFirstMessage (dGet f "type")]
  | _ => .error .attributeError

/-- Validation of the reply to session.update (lines 101-109): the
`session.updated` branch reads `data.get("session", {}).get("voice", ...)`;
anything else is only a logged warning. -/
def sessionUpdatedCheck (j : Json) : Except PyErr (List HandshakeWarning) :=
  match j with
  | .obj f =>
    if isTypeTag f "session.updated" then
      match (dGet f "session").getD (.obj []) with
      | .obj _ => .ok []
      | _ => .error .attributeError
    else .ok [.unexpectedSessionUpdateResponse (dGet f "type")]
  | _ => .error .attributeError

/-- Validation of the reply to the system conversation item (lines
146-151): only a log either way; a non-object raises at `.get`. -/
def itemCreatedCheck (j : Json) : Except PyErr (List HandshakeWarning) :=
  match j with
  | .obj f =>
    if isTypeTag f "conversation.item.created" then .ok []
    else .ok [.unexpectedItemCreateResponse (dGet f "type")]
  | _ => .error .attributeError

/-- A reply the handshake validation can process without raising: a JSON
object whose session field, when present, is an object. -/
def connectReplyOk (j : Json) : Bool :=
  match j with
  | .obj f =>
    match dGet f "session" with
    | none => true
    | some (.obj _) => true
    | some _ => false
  | _ => false

/-- Everything `connect()` produced: the adapter state as mutated so far
(also on failure, matching Python exception semantics), the wire commands
sent upstream, the logged handshake warnings, the vocabulary events
emitted, and the outcome. -/
structure ConnectOutcome where
  state : AdapterState
  sent : List Json
  warnings : List HandshakeWarning
  emitted : List VocabEvent
  result : Except PyErr Unit

/-- `connect()` plus `_configure_session()` (lines 34-161): idempotent
no-op when already connected; `accept = false` is an upstream rejection
(ws_connect raises before `self._ws` is assigned). Otherwise the handle
is set, the three handshake replies are consumed with best-effort
validation, the three wire commands are sent, `self._connected` is set,
a ready status is emitted, and the event task is started. -/
def connect (st : AdapterState) (cbs : Callbacks) (accept : Bool)
    (replies : List (Option Json)) : ConnectOutcome :=
  if st.connected then ⟨st, [], [], [], .ok ()⟩
  else if accept = false then ⟨st, [], [], [], .error .connectionError⟩
  else
    let st1 := { st with ws := true }
    match recvStep replies with
    | .error e => ⟨st1, [], [], [], .error e⟩
    | .ok (r0, rest1) =>
      match firstMsgCheck r0 with
      | .error e => ⟨st1, [], [], [], .error e⟩
      | .ok w0 =>
        match sessionUpdate st.config with
        | .error e => ⟨st1, [], w0, [], .error e⟩
        | .ok updateMsg =>
          match recvStep rest1 with
          | .error e => ⟨st1, [updateMsg], w0, [], .error e⟩
          | .ok (r1, rest2) =>
            match sessionUpdatedCheck r1 with
            | .error e => ⟨st1, [updateMsg], w0, [], .error e⟩
            | .ok w1 =>
              match recvStep rest2 with
              | .error e => ⟨st1, [updateMsg, systemItemMsg st.config], w0 ++ w1, [], .error e⟩
              | .ok (r2, _) =>
                match itemCreatedCheck r2 with
                | .error e =>
                    ⟨st1, [updateMsg, systemItemMsg st.config], w0 ++ w1, [], .error e⟩
                | .ok w2 =>
                    ⟨{ st1 with connected := true, eventTaskRunning := true },
                     [updateMsg, systemItemMsg st.config, greetingResponseMsg],
                     w0 ++ w1 ++ w2,
                     if cbs.on_status then [.status "ready"] else [],
                     .ok ()⟩

/-- An action taken by `disconnect()` on its resources, in order. -/
inductive TaskAction where
  | cancelTask : TaskAction
  | awaitTask : TaskAction
  | closeWs : TaskAction
deriving DecidableEq, Repr

/-- `disconnect()` (lines 163-177): cancel and await the event task when
one exists and clear it, close and clear the connection handle when one
exists, and clear the connected flag. The action list records what was
done, in order. -/
def disconnectA (st : AdapterState) : AdapterState × List TaskAction :=
  ({ st with eventTaskRunning := false, ws := false, connected := false },
   (if st.eventTaskRunning then [TaskAction.cancelTask, TaskAction.awaitTask] else []) ++
   (if st.ws then [TaskAction.closeWs] else []))

/-- The shape check performed by the audit logging of the response.done
branch (lines 270-278): the walk over `response.output` and each message
item content raises when a field it reads is not the expected object or
list shape. -/
def responseAuditOk (f : Dict) : Bool :=
  match (dGet f "response").getD (.obj []) with
  | .obj rf =>
    match (dGet rf "output").getD (.arr []) with
    | .arr items =>
        items.all fun it =>
          match it with
          | .obj itf =>
            if isTypeTag itf "message" then
              match (dGet itf "content").getD (.arr []) with
              | .arr cs => cs.all Json.isObj
              | _ => false
            else true
          | _ => false
    | _ => false
  | _ => false

/-- `_handle_event` (lines 240-289): dispatch one decoded provider
message by its wire tag to the vocabulary events delivered through the
set callbacks. Unrecognized tags produce nothing. -/
def handleEvent (cfg : VoiceConfig) (cbs : Callbacks)
    (parse : String → Option Json) (ev : Json) : Except PyErr (List VocabEvent) :=
  match ev with
  | .obj f =>
    if isTypeTag f "input_audio_buffer.speech_started" then
      .ok ((if cbs.on_speech_started then [.speechStarted] else []) ++
           (if cbs.on_status then [.status "listening"] else []))
    else if isTypeTag f "input_audio_buffer.speech_stopped" then
      .ok ((if cbs.on_speech_stopped then [.speechStopped] else []) ++
           (if cbs.on_status then [.status "processing"] else []))
    else if isTypeTag f "response.audio.delta" || isTypeTag f "response.output_audio.delta" then
      .ok (if cbs.on_audio then [.audio ((dGet f "delta").getD (.str ""))] else [])
    else if isTypeTag f "response.audio_transcript.delta" ||
            isTypeTag f "response.output_audio_transcript.delta" then
      .ok (if cbs.on_transcript then [.transcript ((dGet f "delta").getD (.str ""))] else [])
    else if isTypeTag f "conversation.item.input_audio_transcription.completed" then
      .ok []
    else if isTypeTag f "response.done" then
      if responseAuditOk f then .ok (if cbs.on_status then [.status "ready"] else [])
      else .error .attributeError
    else if isTypeTag f "response.function_call_arguments.done" then
      handleFunctionCallJ cfg cbs parse f
    else if isTypeTag f "error" then
      match (dGet f "error").getD (.obj []) with
      | .obj ef =>
          .ok (if cbs.on_error then
                 [.error ((dGet ef "message").getD (.str (pyStr (.obj f))))]
               else [])
      | _ => .error .attributeError
    else .ok []
  | _ => .error .attributeError

/-- `_process_events` (lines 225-238) over a finite stream of decoded
provider messages: events are handled in arrival order; the first
exception ends the loop after emitting one error event through the
callback (a closed connection simply ends the loop). -/
def processEvents (cfg : VoiceConfig) (cbs : Callbacks)
    (parse : String → Option Json) : List Json → List VocabEvent
  | [] => []
  | e :: rest =>
    match handleEvent cfg cbs parse e with
    | .ok evs => evs ++ processEvents cfg cbs parse rest
    | .error err => if cbs.on_error then [.error (.str (pyExcStr err))] else []

/-- The client-facing JSON command the session bridge callbacks send for
each vocabulary event (server.py lines 155-182). -/
def encodeEvent : VocabEvent → Json
  | .audio d => .obj [("type", .str "audio"), ("data", d)]
  | .transcript t => .obj [("type", .str "transcript"), ("text", t)]
  | .functionCall n cid args =>
      .obj [("type", .str "function_call"), ("name", .str n),
            ("call_id", cid), ("arguments", args)]
  | .speechStarted => .obj [("type", .str "speech_started")]
  | .speechStopped => .obj [("type", .str "speech_stopped")]
  | .status s => .obj [("type", .str "status"), ("state", .str s)]
  | .error m => .obj [("type", .str "error"), ("message", m)]

/-- The `connected` command sent by the bridge after connect() succeeds
(server.py line 194). -/
def connectedMsg : Json := .obj [("type", .str "connected")]

/-- A `status` command with the given state. -/
def statusMsg (s : String) : Json := .obj [("type", .str "status"), ("state", .str s)]

/-- The ordered list of commands the client receives during a session
start (server.py lines 192-194 plus the adapter background loop): the
sends made by callbacks during connect(), then `connected`, then the
sends driven by the provider event stream. On a connect() failure the
bridge reports one error command instead (lines 218-223). -/
def sessionStartSends (cfg : VoiceConfig) (cbs : Callbacks) (accept : Bool)
    (replies : List (Option Json)) (parse : String → Option Json)
    (provEvents : List Json) : List Json :=
  let co := connect (initState cfg) cbs accept replies
  match co.result with
  | .ok _ =>
      co.emitted.map encodeEvent ++ [connectedMsg] ++
      (processEvents cfg cbs parse provEvents).map encodeEvent
  | .error e =>
      co.emitted.map encodeEvent ++
      [.obj [("type", .str "error"), ("message", .str (pyExcStr e))]]

/-- A call the session bridge makes into the adapter while dispatching a
client command (server.py lines 200-214). -/
inductive AdapterCall where
  | sendAudio (data : Json) : AdapterCall
  | sendText (text : Json) : AdapterCall
  | sendFunctionResult (callId : Json) (result : Json) : AdapterCall

/-- An observable action of the session bridge receive loop: a send on
the client connection or an adapter call. -/
inductive BridgeAction where
  | clientSend (j : Json) : BridgeAction
  | adapterCall (c : AdapterCall) : BridgeAction

/-- Whether Python slicing `x[:50]` is defined on the value (the audit
log of the text branch, server.py line 206, slices the text payload). -/
def Json.sliceable : Json → Bool
  | .str _ => true
  | .arr _ => true
  | _ => false

/-- One iteration of the session-bridge receive loop (server.py lines
196-214): dispatch one decoded client command. The text branch sends a
processing status to the client before forwarding to the adapter; a
message whose type is none of audio, text and function_result falls
through every branch and is discarded. A non-object message raises at
`.get`. -/
def handleClientMsg (d : Json) : Except PyErr (List BridgeAction) :=
  match d with
  | .obj f =>
    if isTypeTag f "audio" then
      .ok [.adapterCall (.sendAudio ((dGet f "data").getD (.str "")))]
    else if isTypeTag f "text" then
      let t := (dGet f "text").getD (.str "")
      if t.sliceable then
        .ok [.clientSend (statusMsg "processing"), .adapterCall (.sendText t)]
      else .error .typeError
    else if isTypeTag f "function_result" then
      .ok [.adapterCall (.sendFunctionResult ((dGet f "call_id").getD .null)
            ((dGet f "result").getD (.obj [])))]
    else .ok []
  | _ => .error .attributeError

/-- The receive loop over a finite list of client messages: the actions
taken in order, and the exception that ended the loop early, if any. -/
def receiveLoopAcc : List Json → List BridgeAction × Option PyErr
  | [] => ([], none)
  | d :: rest =>
    match handleClientMsg d with
    | .error e => ([], some e)
    | .ok a =>
      let r := receiveLoopAcc rest
      (a ++ r.1, r.2)

/-- How the receive loop ended once the modelled messages ran out:
a client disconnect (WebSocketDisconnect) or some other exception (for
example one raised by an adapter call). -/
inductive LoopExit where
  | clientDisconnect : LoopExit
  | exception (e : PyErr) : LoopExit

/-- The outcome of the live phase and teardown of one session. -/
structure LiveResult where
  actions : List BridgeAction
  finalState : AdapterState
  taskActions : List TaskAction

/-- The live phase plus teardown of websocket_voice (server.py lines
196-225): run the receive loop, report a non-disconnect exception to the
client on a best-effort basis, and unconditionally run the adapter
disconnect() in the finally block, however the loop exited. -/
def sessionLivePhase (st : AdapterState) (msgs : List Json) (exit : LoopExit) :
    LiveResult :=
  let r := receiveLoopAcc msgs
  let exitErr : Option PyErr :=
    match r.2 with
    | some e => some e
    | none => match exit with
      | .clientDisconnect => none
      | .exception e => some e
  let errSends : List BridgeAction :=
    match exitErr with
    | none => []
    | some e => [.clientSend (.obj [("type", .str "error"), ("message", .str (pyExcStr e))])]
  let dr := disconnectA st
  ⟨r.1 ++ errSends, dr.1, dr.2⟩

/-- One step of the relay gateway in the bridge-to-client direction
(backend/server.py, forward_from_voice_service, lines 182-227): known
envelope types are forwarded to the frontend as decoded, a `connected`
envelope is replaced by a ready status, unknown types are dropped, and a
non-object envelope raises at `.get` (ending the forwarding task). -/
def forwardFromVoiceMsg (d : Json) : Except PyErr (List Json) :=
  match d with
  | .obj f =>
    if isTypeTag f "audio" then .ok [d]
    else if isTypeTag f "transcript" then .ok [d]
    else if isTypeTag f "status" then .ok [d]
    else if isTypeTag f "function_call" then .ok [d]
    else if isTypeTag f "speech_started" then .ok [d]
    else if isTypeTag f "speech_stopped" then .ok [d]
    else if isTypeTag f "connected" then .ok [statusMsg "ready"]
    else if isTypeTag f "error" then .ok [d]
    else .ok []
  | _ => .error .attributeError

/-- One step of the relay gateway in the client-to-bridge direction
(forward_to_voice_service, lines 149-180): text, audio, function_result
and mute envelopes are forwarded as decoded, everything else is dropped. -/
def forwardToVoiceMsg (d : Json) : Except PyErr (List Json) :=
  match d with
  | .obj f =>
    if isTypeTag f "text" then .ok [d]
    else if isTypeTag f "audio" then .ok [d]
    else if isTypeTag f "function_result" then .ok [d]
    else if isTypeTag f "mute" then .ok [d]
    else .ok []
  | _ => .error .attributeError

/-- The configure command the relay injects once at connection start
(backend/server.py lines 93-97). -/
def relayConfigureMsg : Json :=
  .obj [("type", .str "configure"),
    ("instructions", .str "You are Eon, a helpful and friendly AI assistant. Respond naturally and conversationally."),
    ("tools", .arr [])]

/-- A concrete session configuration used by witnesses and
counterexamples. -/
def cfgEx : VoiceConfig :=
  { endpoint := "https://example", api_key := "key", model := "gpt",
    voice := "alloy", instructions := "hi", user_id := "user-1",
    tools := [], greeting_cue := none }

/-- A json.loads stand-in that accepts nothing, for concrete runs whose
argument payloads are not valid JSON. -/
def parseNone : String → Option Json := fun _ => none

/-- A provider session.created acknowledgment. -/
def msgCreated : Json := .obj [("type", .str "session.created")]

/-- A provider session.updated acknowledgment. -/
def msgUpdated : Json := .obj [("type", .str "session.updated")]

/-- A provider conversation.item.created acknowledgment. -/
def msgItemCreated : Json := .obj [("type", .str "conversation.item.created")]

/-- A bogus handshake reply used by counterexamples. -/
def msgBogus1 : Json := .obj [("type", .str "bogus1")]

/-- A second bogus handshake reply. -/
def msgBogus2 : Json := .obj [("type", .str "bogus2")]

/-- A third bogus handshake reply. -/
def msgBogus3 : Json := .obj [("type", .str "bogus3")]

/-- A configuration with one function-typed tool declaration, used by
witnesses. -/
def cfgFnTool : VoiceConfig :=
  { cfgEx with tools := [[("type", .str "function"), ("name", .str "search_memory")]] }

/-- The converted provider schema of the one tool of cfgFnTool. -/
def tsFn : List Json :=
  [.obj [("type", .str "function"), ("name", .str "search_memory"),
    ("description", .str ""), ("parameters", .obj [])]]

/-- Setting a key always makes it readable back (Python dict semantics). -/
theorem dGet_dictSet_self (d : Dict) (k : String) (v : Json) :
    dGet (dictSet d k v) k = some v := by
  induction d with
  | nil => simp [dictSet, dGet]
  | cons p rest ih =>
    obtain ⟨k2, v2⟩ := p
    by_cases hk : k2 = k
    · simp [dictSet, hk, dGet]
    · simp [dictSet, hk, dGet, ih]

/-- The type-tag test holds exactly when the type field is that string. -/
theorem isTypeTag_true_iff (f : Dict) (t : String) :
    isTypeTag f t = true ↔ dGet f "type" = some (.str t) := by
  unfold isTypeTag
  rcases hg : dGet f "type" with _ | v
  · simp
  · cases v <;> simp

/-- A message carries at most one type tag. -/
theorem isTypeTag_ne {f : Dict} {t1 t2 : String} (h : isTypeTag f t1 = true)
    (hne : t1 ≠ t2) : isTypeTag f t2 = false := by
  rw [isTypeTag_true_iff] at h
  rw [← Bool.not_eq_true, isTypeTag_true_iff, h]
  simp [hne]

/-- A well-formed reply passes the first handshake validation without an
exception. -/
theorem firstMsgCheck_ok {j : Json} (h : connectReplyOk j = true) :
    ∃ w, firstMsgCheck j = Except.ok w := by
  cases j with
  | obj f =>
    unfold firstMsgCheck
    by_cases hty : isTypeTag f "session.created" = true
    · simp only [hty, if_true]
      simp only [connectReplyOk] at h
      rcases hg : dGet f "session" with _ | v
      · exact ⟨[], rfl⟩
      · rw [hg] at h
        cases v <;> first | exact ⟨[], rfl⟩ | simp at h
    · simp [hty]
  | null => simp [connectReplyOk] at h
  | bool b => simp [connectReplyOk] at h
  | num n => simp [connectReplyOk] at h
  | str s => simp [connectReplyOk] at h
  | arr xs => simp [connectReplyOk] at h

/-- A well-formed reply passes the session-updated validation without an
exception. -/
theorem sessionUpdatedCheck_ok {j : Json} (h : connectReplyOk j = true) :
    ∃ w, sessionUpdatedCheck j = Except.ok w := by
  cases j with
  | obj f =>
    unfold sessionUpdatedCheck
    by_cases hty : isTypeTag f "session.updated" = true
    · simp only [hty, if_true]
      simp only [connectReplyOk] at h
      rcases hg : dGet f "session" with _ | v
      · exact ⟨[], rfl⟩
      · rw [hg] at h
        cases v <;> first | exact ⟨[], rfl⟩ | simp at h
    · simp [hty]
  | null => simp [connectReplyOk] at h
  | bool b => simp [connectReplyOk] at h
  | num n => simp [connectReplyOk] at h
  | str s => simp [connectReplyOk] at h
  | arr xs => simp [connectReplyOk] at h

/-- Any object reply passes the item-created validation without an
exception. -/
theorem itemCreatedCheck_ok {j : Json} (h : j.isObj = true) :
    ∃ w, itemCreatedCheck j = Except.ok w := by
  cases j with
  | obj f =>
    unfold itemCreatedCheck
    by_cases hty : isTypeTag f "conversation.item.created" = true
    · simp [hty]
    · simp [hty]
  | null => simp [Json.isObj] at h
  | bool b => simp [Json.isObj] at h
  | num n => simp [Json.isObj] at h
  | str s => simp [Json.isObj] at h
  | arr xs => simp [Json.isObj] at h

/-- A handshake fed three well-formed frames completes: connect() returns
normally with the connected state, exactly the three wire commands sent
and only a ready status emitted, whatever the type tags of the replies. -/
theorem connect_success (cfg : VoiceConfig) (cbs : Callbacks) (r0 r1 r2 : Json) (u : Json)
    (hu : sessionUpdate cfg = .ok u) (h0 : connectReplyOk r0 = true)
    (h1 : connectReplyOk r1 = true) (h2 : r2.isObj = true) :
    (connect (initState cfg) cbs true [some r0, some r1, some r2]).result = .ok () ∧
    (connect (initState cfg) cbs true [some r0, some r1, some r2]).emitted
      = (if cbs.on_status then [VocabEvent.status "ready"] else []) ∧
    (connect (initState cfg) cbs true [some r0, some r1, some r2]).state
      = ⟨cfg, true, true, true⟩ ∧
    (connect (initState cfg) cbs true [some r0, some r1, some r2]).sent
      = [u, systemItemMsg cfg, greetingResponseMsg] := by
  obtain ⟨w0, hw0⟩ := firstMsgCheck_ok h0
  obtain ⟨w1, hw1⟩ := sessionUpdatedCheck_ok h1
  obtain ⟨w2, hw2⟩ := itemCreatedCheck_ok h2
  simp [connect, initState, recvStep, hw0, hw1, hw2, hu]

/-- A tool that converts to a schema entry is function-typed. -/
theorem convertTool_ok_some {t : Dict} {j : Json}
    (h : convertTool t = .ok (some j)) : isFunctionTool t = true := by
  by_cases hf : isFunctionTool t = true
  · exact hf
  · simp only [Bool.not_eq_true] at hf
    simp [convertTool, hf] at h

/-- A tool that converts to nothing is not function-typed. -/
theorem convertTool_ok_none {t : Dict}
    (h : convertTool t = .ok none) : isFunctionTool t = false := by
  by_cases hf : isFunctionTool t = true
  · unfold convertTool at h
    rw [hf] at h
    simp only [if_true] at h
    cases hg : dGet t "name" with
    | none => rw [hg] at h; simp at h
    | some nm => rw [hg] at h; simp at h
  · simpa using hf

/-- The converted tool list is non-empty exactly when some declaration is
function-typed. -/
theorem convertTools_nonempty_iff (tools : List Dict) (ts : List Json)
    (h : convertTools tools = .ok ts) :
    ts ≠ [] ↔ tools.any isFunctionTool = true := by
  induction tools generalizing ts with
  | nil =>
    simp only [convertTools, Except.ok.injEq] at h
    subst h
    simp
  | cons t rest ih =>
    unfold convertTools at h
    cases hct : convertTool t with
    | error e => rw [hct] at h; simp at h
    | ok o =>
      rw [hct] at h
      cases hcr : convertTools rest with
      | error e => rw [hcr] at h; simp at h
      | ok ts2 =>
        rw [hcr] at h
        simp only [Except.ok.injEq] at h
        cases o with
        | some j =>
          subst h
          have hf := convertTool_ok_some hct
          simp [List.any_cons, hf]
        | none =>
          subst h
          have hf := convertTool_ok_none hct
          simp [List.any_cons, hf, ih ts2 hcr]

/-- C1: every function-call event emitted by the adapter maps user_id to
the session user identifier when the name is user-scoped (one of the four
memory tools or a GoogleCalendar_ prefixed name), replacing any
provider-supplied value; for every other name the emitted arguments are
exactly the parsed provider arguments, so no user_id key is added. -/
theorem C1_user_id_injection (cfg : VoiceConfig) (cbs : Callbacks)
    (parse : String → Option Json) (f : Dict) (n : String) (cid args : Json)
    (h : handleFunctionCallJ cfg cbs parse f = .ok [.functionCall n cid args]) :
    (isUserScopedFunction n = true → args.lookup "user_id" = some (.str cfg.user_id)) ∧
    (isUserScopedFunction n = false → rawParsedArgs parse f = .ok args) := by
  unfold handleFunctionCallJ at h
  cases hraw : rawParsedArgs parse f with
  | error e => rw [hraw] at h; simp at h
  | ok args0 =>
    rw [hraw] at h
    cases hname : (dGet f "name").getD (.str "") with
    | str fname =>
      rw [hname] at h
      simp only [] at h
      cases hinj : injectUserId cfg.user_id fname args0 with
      | error e => rw [hinj] at h; simp at h
      | ok args1 =>
        rw [hinj] at h
        cases hcb : cbs.on_function_call with
        | false => rw [hcb] at h; simp at h
        | true =>
          rw [hcb] at h
          simp only [if_true] at h
          have := h
          simp only [Except.ok.injEq, List.cons.injEq,
            VocabEvent.functionCall.injEq] at this
          obtain ⟨⟨hn, hc, ha⟩, -⟩ := this
          subst hn; subst hc; subst ha
          unfold injectUserId at hinj
          constructor
          · intro hsc
            rw [hsc] at hinj
            simp only [if_true] at hinj
            cases args0 with
            | obj fields =>
              simp only [Except.ok.injEq] at hinj
              subst hinj
              simp [Json.lookup, dGet_dictSet_self]
            | null => simp at hinj
            | bool b => simp at hinj
            | num m => simp at hinj
            | str s => simp at hinj
            | arr xs => simp at hinj
          · intro hsc
            rw [hsc] at hinj
            simp only [Bool.false_eq_true, if_false, Except.ok.injEq] at hinj
            simp only [hraw, hinj]
    | null => rw [hname] at h; simp at h
    | bool b => rw [hname] at h; simp at h
    | num m => rw [hname] at h; simp at h
    | arr xs => rw [hname] at h; simp at h
    | obj g => rw [hname] at h; simp at h

/-- C1 witness: a concrete search_memory call from the provider reaches
the consumer with user_id mapped to the session user. -/
theorem C1_witness :
    Json.lookup (.obj [("user_id", .str "user-1")]) "user_id" = some (.str "user-1") :=
  (C1_user_id_injection cfgEx allCallbacks parseNone
    [("name", .str "search_memory"), ("call_id", .str "c1"), ("arguments", .str "")]
    "search_memory" (.str "c1") (.obj [("user_id", .str "user-1")]) rfl).1 rfl

/-- C2 counterexample: a handshake whose three replies all carry
unexpected type tags does not make connect() raise; it returns
successfully, merely recording three logged warnings and emitting only
the ready status event, never a ProtocolError or an error event. -/
theorem C2_counterexample :
    isTypeTag [("type", Json.str "bogus1")] "session.created" = false ∧
    (connect (initState cfgEx) allCallbacks true
      [some msgBogus1, some msgBogus2, some msgBogus3]).result = .ok () ∧
    (connect (initState cfgEx) allCallbacks true
      [some msgBogus1, some msgBogus2, some msgBogus3]).warnings.length = 3 ∧
    (connect (initState cfgEx) allCallbacks true
      [some msgBogus1, some msgBogus2, some msgBogus3]).emitted
      = [.status "ready"] :=
  ⟨rfl, rfl, rfl, rfl⟩

/-- C2 amended: an unexpected message at any handshake step is only
logged; connect() raises no error for it, completes with the connected
state, and emits nothing but the ready status (no error event). -/
theorem C2_amended (cfg : VoiceConfig) (cbs : Callbacks) (r0 r1 r2 u : Json)
    (hu : sessionUpdate cfg = .ok u)
    (h0 : connectReplyOk r0 = true) (h1 : connectReplyOk r1 = true)
    (h2 : r2.isObj = true) :
    (connect (initState cfg) cbs true [some r0, some r1, some r2]).result = .ok () ∧
    (connect (initState cfg) cbs true [some r0, some r1, some r2]).state.connected = true ∧
    ∀ e ∈ (connect (initState cfg) cbs true [some r0, some r1, some r2]).emitted,
      e = VocabEvent.status "ready" := by
  obtain ⟨hres, hemit, hstate, -⟩ := connect_success cfg cbs r0 r1 r2 u hu h0 h1 h2
  refine ⟨hres, by rw [hstate], ?_⟩
  intro e he
  rw [hemit] at he
  cases hcb : cbs.on_status with
  | true => rw [hcb] at he; simp at he; exact he
  | false => rw [hcb] at he; simp at he

/-- C2 witness: a run whose first reply is unexpected still connects. -/
theorem C2_witness :
    (connect (initState cfgEx) allCallbacks true
      [some msgBogus1, some msgUpdated, some msgItemCreated]).result = .ok () ∧
    (connect (initState cfgEx) allCallbacks true
      [some msgBogus1, some msgUpdated, some msgItemCreated]).state.connected = true ∧
    ∀ e ∈ (connect (initState cfgEx) allCallbacks true
      [some msgBogus1, some msgUpdated, some msgItemCreated]).emitted,
      e = VocabEvent.status "ready" :=
  C2_amended cfgEx allCallbacks msgBogus1 msgUpdated msgItemCreated
    (.obj [("type", .str "session.update"),
      ("session", .obj (sessionConfigDict cfgEx []))]) rfl rfl rfl rfl

/-- C3: a provider function-call event whose arguments payload is empty
or not valid JSON is never dropped: the pre-injection arguments are the
empty mapping and a function-call event is still emitted (with user_id
injected when the name is user-scoped). -/
theorem C3_malformed_args (cfg : VoiceConfig) (cbs : Callbacks)
    (parse : String → Option Json) (f : Dict) (s nm : String)
    (hcb : cbs.on_function_call = true)
    (hargs : (dGet f "arguments").getD (.str "") = .str s)
    (hbad : s = "" ∨ parse s = none)
    (hname : (dGet f "name").getD (.str "") = .str nm) :
    rawParsedArgs parse f = .ok (.obj []) ∧
    handleFunctionCallJ cfg cbs parse f
      = .ok [.functionCall nm ((dGet f "call_id").getD (.str ""))
          (if isUserScopedFunction nm then .obj [("user_id", .str cfg.user_id)]
           else .obj [])] := by
  have hparse : parseFnArguments parse s = .obj [] := by
    rcases hbad with hb | hb
    · simp [parseFnArguments, hb]
    · by_cases hs : s = "" <;> simp [parseFnArguments, hs, hb]
  have hraw : rawParsedArgs parse f = .ok (.obj []) := by
    unfold rawParsedArgs
    rw [hargs]
    simp [hparse]
  refine ⟨hraw, ?_⟩
  unfold handleFunctionCallJ
  rw [hraw, hname]
  by_cases hsc : isUserScopedFunction nm = true
  · simp [injectUserId, hsc, hcb, dictSet]
  · simp only [Bool.not_eq_true] at hsc
    simp [injectUserId, hsc, hcb]

/-- C3 witness: a non-JSON arguments payload on a non-scoped tool yields
an emitted event with empty arguments. -/
theorem C3_witness :
    rawParsedArgs parseNone
      [("name", .str "other_tool"), ("call_id", .str "c7"), ("arguments", .str "notjson")]
      = .ok (.obj []) ∧
    handleFunctionCallJ cfgEx allCallbacks parseNone
      [("name", .str "other_tool"), ("call_id", .str "c7"), ("arguments", .str "notjson")]
      = .ok [.functionCall "other_tool"
          ((dGet [("name", Json.str "other_tool"), ("call_id", Json.str "c7"),
            ("arguments", Json.str "notjson")] "call_id").getD (.str ""))
          (if isUserScopedFunction "other_tool"
           then .obj [("user_id", .str cfgEx.user_id)] else .obj [])] :=
  C3_malformed_args cfgEx allCallbacks parseNone
    [("name", .str "other_tool"), ("call_id", .str "c7"), ("arguments", .str "notjson")]
    "notjson" "other_tool" rfl rfl (Or.inr rfl) rfl

/-- C4 counterexample: in a successful session start the very first
command the client receives is the ready status emitted by connect()
itself, followed by connected, followed by the ready driven by the
provider response.done; so the first status-ready precedes connected,
contrary to the claim. -/
theorem C4_counterexample :
    sessionStartSends cfgEx allCallbacks true
      [some msgCreated, some msgUpdated, some msgItemCreated] parseNone
      [Json.obj [("type", Json.str "response.done")]]
      = [statusMsg "ready", connectedMsg, statusMsg "ready"] ∧
    statusMsg "ready" ≠ connectedMsg :=
  ⟨rfl, by simp [statusMsg, connectedMsg]⟩

/-- C4 amended: every successful session start delivers exactly one
status-ready (emitted at handshake completion) immediately before
connected, and every provider-driven command, including the status-ready
produced by each response.done, strictly after connected. -/
theorem C4_amended (cfg : VoiceConfig) (r0 r1 r2 u : Json)
    (parse : String → Option Json) (evs : List Json)
    (hu : sessionUpdate cfg = .ok u)
    (h0 : connectReplyOk r0 = true) (h1 : connectReplyOk r1 = true)
    (h2 : r2.isObj = true) :
    sessionStartSends cfg allCallbacks true [some r0, some r1, some r2] parse evs
      = [statusMsg "ready", connectedMsg] ++
        (processEvents cfg allCallbacks parse evs).map encodeEvent := by
  obtain ⟨hres, hemit, -, -⟩ :=
    connect_success cfg allCallbacks r0 r1 r2 u hu h0 h1 h2
  simp only [sessionStartSends]
  rw [hres, hemit]
  simp [allCallbacks, encodeEvent, statusMsg]

/-- C4 witness: the trace of a clean handshake with no provider events. -/
theorem C4_witness :
    sessionStartSends cfgEx allCallbacks true
      [some msgCreated, some msgUpdated, some msgItemCreated] parseNone []
      = [statusMsg "ready", connectedMsg] ++
        (processEvents cfgEx allCallbacks parseNone []).map encodeEvent :=
  C4_amended cfgEx msgCreated msgUpdated msgItemCreated
    (.obj [("type", .str "session.update"),
      ("session", .obj (sessionConfigDict cfgEx []))]) parseNone [] rfl rfl rfl rfl

/-- C5: however the receive loop exits (client disconnect, exception, or
an exception raised by a dispatched message), the finally-block teardown
modelled by sessionLivePhase leaves the adapter with no background task,
no connection handle and the connected flag cleared; when a task was
running it is cancelled and then awaited, in that order; calling
disconnect() again on the resulting state is a no-op; and connect()
followed immediately by disconnect() leaves no background task running,
with a second disconnect() also a no-op. -/
theorem C5_disconnect_cleanup (cfg : VoiceConfig) (cbs : Callbacks) (accept : Bool)
    (replies : List (Option Json)) (st : AdapterState) (msgs : List Json)
    (exit : LoopExit) :
    (sessionLivePhase st msgs exit).finalState.eventTaskRunning = false ∧
    (sessionLivePhase st msgs exit).finalState.ws = false ∧
    (sessionLivePhase st msgs exit).finalState.connected = false ∧
    (sessionLivePhase st msgs exit).taskActions =
      (if st.eventTaskRunning then [TaskAction.cancelTask, TaskAction.awaitTask] else []) ++
      (if st.ws then [TaskAction.closeWs] else []) ∧
    disconnectA (sessionLivePhase st msgs exit).finalState
      = ((sessionLivePhase st msgs exit).finalState, []) ∧
    (disconnectA (connect (initState cfg) cbs accept replies).state).1.eventTaskRunning
      = false ∧
    disconnectA (disconnectA (connect (initState cfg) cbs accept replies).state).1
      = ((disconnectA (connect (initState cfg) cbs accept replies).state).1, []) :=
  ⟨rfl, rfl, rfl, rfl, rfl, rfl, rfl⟩

/-- C6 counterexample: a connect() that opened the upstream connection
but failed at the first handshake frame (invalid JSON) has not completed
(it raised, the connected flag is false), yet send_audio and send_text do
not fail with NotConnectedError: the `if not self._ws` guard passes and
the wire commands are sent. -/
theorem C6_counterexample :
    (connect (initState cfgEx) allCallbacks true [none]).result
      = .error .jsonDecodeError ∧
    (connect (initState cfgEx) allCallbacks true [none]).state.connected = false ∧
    send_audio (connect (initState cfgEx) allCallbacks true [none]).state (.str "AAA")
      = .ok [.obj [("type", .str "input_audio_buffer.append"), ("audio", .str "AAA")]] ∧
    send_text (connect (initState cfgEx) allCallbacks true [none]).state (.str "hi")
      = .ok [.obj [("type", .str "conversation.item.create"),
          ("item", .obj [("type", .str "message"), ("role", .str "user"),
            ("content", .arr [.obj [("type", .str "input_text"), ("text", .str "hi")]])])],
        .obj [("type", .str "response.create")]] :=
  ⟨rfl, rfl, rfl, rfl⟩

/-- C6 amended: send_audio and send_text fail with NotConnectedError,
sending nothing, exactly when the connection handle is unset (a fresh
adapter, a rejected ws_connect, or after disconnect()); the guard checks
the handle, not handshake completion. -/
theorem C6_amended (st : AdapterState) (a t : Json) (h : st.ws = false) :
    send_audio st a = .error notConnectedError ∧
    send_text st t = .error notConnectedError := by
  simp [send_audio, send_text, h]

/-- C6 witness: both sends are rejected on a fresh adapter. -/
theorem C6_witness :
    send_audio (initState cfgEx) (.str "x") = .error notConnectedError ∧
    send_text (initState cfgEx) (.str "y") = .error notConnectedError :=
  C6_amended (initState cfgEx) (.str "x") (.str "y") rfl

/-- C7: whenever the bridge dispatches a text command, the actions it
takes are exactly a processing-status send on the client connection
followed by the send_text adapter call, in that order; the client
receives the status before anything the forwarded text can cause. -/
theorem C7_processing_before_forward (f : Dict) (acts : List BridgeAction)
    (hty : isTypeTag f "text" = true)
    (h : handleClientMsg (.obj f) = .ok acts) :
    acts = [.clientSend (statusMsg "processing"),
            .adapterCall (.sendText ((dGet f "text").getD (.str "")))] := by
  have haud : isTypeTag f "audio" = false := isTypeTag_ne hty (by decide)
  simp only [handleClientMsg] at h
  rw [haud, hty] at h
  simp only [Bool.false_eq_true, if_false, if_true] at h
  cases hsl : ((dGet f "text").getD (.str "")).sliceable with
  | true => rw [hsl] at h; simp only [if_true] at h; exact (Except.ok.injEq _ _).mp h.symm
  | false => rw [hsl] at h; simp at h

/-- C7 witness: the concrete dispatch of a hello text command. -/
theorem C7_witness :
    ([.clientSend (statusMsg "processing"),
      .adapterCall (.sendText ((dGet [("type", Json.str "text"),
        ("text", Json.str "hello")] "text").getD (.str "")))] : List BridgeAction)
      = [.clientSend (statusMsg "processing"),
         .adapterCall (.sendText ((dGet [("type", Json.str "text"),
           ("text", Json.str "hello")] "text").getD (.str "")))] :=
  C7_processing_before_forward
    [("type", Json.str "text"), ("text", Json.str "hello")]
    [.clientSend (statusMsg "processing"), .adapterCall (.sendText (.str "hello"))]
    rfl rfl

/-- C8 counterexample: the relay does not forward the connected envelope
unaltered; it rewrites it to a ready status, so the forwarded message is
not identical to the envelope received from the bridge. -/
theorem C8_counterexample :
    forwardFromVoiceMsg connectedMsg = .ok [statusMsg "ready"] ∧
    statusMsg "ready" ≠ connectedMsg :=
  ⟨rfl, by simp [statusMsg, connectedMsg]⟩

/-- C8 amended: every message the relay delivers to the client in the
bridge-to-client direction has content identical to the envelope received
from the bridge, except that a connected envelope is rewritten to
status ready (unknown types are dropped and reach the client not at
all). -/
theorem C8_amended (f : Dict) (out : List Json) (j : Json)
    (h : forwardFromVoiceMsg (.obj f) = .ok out) (hj : j ∈ out) :
    j = .obj f ∨ (isTypeTag f "connected" = true ∧ j = statusMsg "ready") := by
  simp only [forwardFromVoiceMsg] at h
  split_ifs at h <;> simp only [Except.ok.injEq] at h <;> subst h <;> simp_all

/-- C8 witness: an audio envelope is forwarded identically. -/
theorem C8_witness :
    (Json.obj [("type", Json.str "audio"), ("data", Json.str "zz")]
      = Json.obj [("type", Json.str "audio"), ("data", Json.str "zz")]) ∨
    (isTypeTag [("type", Json.str "audio"), ("data", Json.str "zz")] "connected" = true ∧
     Json.obj [("type", Json.str "audio"), ("data", Json.str "zz")] = statusMsg "ready") :=
  C8_amended [("type", Json.str "audio"), ("data", Json.str "zz")]
    [Json.obj [("type", Json.str "audio"), ("data", Json.str "zz")]]
    (Json.obj [("type", Json.str "audio"), ("data", Json.str "zz")])
    rfl (by simp)

/-- C9 counterexample: a non-empty tool-declaration list containing no
function-typed entry produces a session-update command whose session
dictionary has no tools key at all, refuting the claimed iff against
non-emptiness of the declaration list. -/
theorem C9_counterexample :
    ({ cfgEx with tools := [[("name", Json.str "t")]] } : VoiceConfig).tools ≠ [] ∧
    sessionUpdate { cfgEx with tools := [[("name", Json.str "t")]] }
      = .ok (.obj [("type", .str "session.update"),
          ("session", .obj [("voice", .str "alloy"), ("instructions", .str "hi"),
            ("input_audio_transcription", .obj [("model", .str "whisper-1")])])]) ∧
    dGet [("voice", Json.str "alloy"), ("instructions", Json.str "hi"),
      ("input_audio_transcription", Json.obj [("model", Json.str "whisper-1")])]
      "tools" = none :=
  ⟨by simp, rfl, rfl⟩

/-- C9 amended: the session-update command always carries voice,
instructions and the input-transcription settings, and it carries the
tool schema list together with tool_choice auto exactly when the
converted tool list is non-empty, which holds exactly when the configured
declarations contain at least one function-typed entry. -/
theorem C9_amended (cfg : VoiceConfig) (ts : List Json)
    (h : convertTools cfg.tools = .ok ts) :
    sessionUpdate cfg = .ok (.obj [("type", .str "session.update"),
      ("session", .obj (sessionConfigDict cfg ts))]) ∧
    dGet (sessionConfigDict cfg ts) "voice" = some (.str cfg.voice) ∧
    dGet (sessionConfigDict cfg ts) "instructions" = some (.str cfg.instructions) ∧
    dGet (sessionConfigDict cfg ts) "input_audio_transcription"
      = some (.obj [("model", .str "whisper-1")]) ∧
    ((dGet (sessionConfigDict cfg ts) "tools" = some (.arr ts) ∧
      dGet (sessionConfigDict cfg ts) "tool_choice" = some (.str "auto")) ↔ ts ≠ []) ∧
    (ts ≠ [] ↔ cfg.tools.any isFunctionTool = true) := by
  refine ⟨by simp [sessionUpdate, h], ?_, ?_, ?_, ?_, convertTools_nonempty_iff _ _ h⟩
  · cases ts <;> simp [sessionConfigDict, dGet]
  · cases ts <;> simp [sessionConfigDict, dGet]
  · cases ts <;> simp [sessionConfigDict, dGet]
  · cases ts with
    | nil => simp [sessionConfigDict, dGet]
    | cons j rest => simp [sessionConfigDict, dGet]

/-- C9 witness: one function-typed declaration makes the session carry
voice and the tool schema list. -/
theorem C9_witness :
    sessionUpdate cfgFnTool = .ok (.obj [("type", .str "session.update"),
      ("session", .obj (sessionConfigDict cfgFnTool tsFn))]) ∧
    dGet (sessionConfigDict cfgFnTool tsFn) "voice" = some (.str cfgFnTool.voice) ∧
    (tsFn ≠ [] ↔ cfgFnTool.tools.any isFunctionTool = true) := by
  obtain ⟨h1, h2, -, -, -, h6⟩ := C9_amended cfgFnTool tsFn rfl
  exact ⟨h1, h2, h6⟩

/-- C10: a client message whose type is none of audio, text and
function_result is silently discarded: the dispatch performs no adapter
call, sends no reply and raises nothing, and the receive loop continues
exactly as if the message had not been received. -/
theorem C10_unknown_type_discarded (f : Dict) (rest : List Json)
    (h1 : isTypeTag f "audio" = false) (h2 : isTypeTag f "text" = false)
    (h3 : isTypeTag f "function_result" = false) :
    handleClientMsg (.obj f) = .ok [] ∧
    receiveLoopAcc (Json.obj f :: rest) = receiveLoopAcc rest := by
  have hm : handleClientMsg (.obj f) = .ok [] := by
    simp only [handleClientMsg]
    rw [h1, h2, h3]
    simp
  refine ⟨hm, ?_⟩
  simp only [receiveLoopAcc, hm, List.nil_append]

/-- C10 witness: the mute command forwarded by the relay is dropped and
the loop proceeds to the next message. -/
theorem C10_witness :
    handleClientMsg (.obj [("type", Json.str "mute")]) = .ok [] ∧
    receiveLoopAcc [Json.obj [("type", Json.str "mute")],
        Json.obj [("type", Json.str "audio"), ("data", Json.str "zz")]]
      = receiveLoopAcc [Json.obj [("type", Json.str "audio"), ("data", Json.str "zz")]] :=
  C10_unknown_type_discarded [("type", Json.str "mute")]
    [Json.obj [("type", Json.str "audio"), ("data", Json.str "zz")]] rfl rfl rfl
